import Mathlib

/-!
Verification of the middleware adapter layer of the `cot` framework
(`cot/src/middleware.rs`), as a shallow embedding in Lean.

The file embeds:
* the canonical error type and `map_err` (the error-normalization function);
* the canonical response/body types and `map_response`;
* the adapter services `IntoCotResponse` / `IntoCotError` (poll_ready / call);
* the conditional live-reload composition (`tower::util::Either` over the
  three-layer tuple vs `Identity`), `LiveReloadMiddleware::with_enabled`,
  `::new`, `::from_context`;
* the session middleware's layer operation, with explicit store allocation.

Collaborator types that live outside `middleware.rs` (the canonical `Error`
display/source impls, `Body::wrapper`, `tower_livereload`, `tower_sessions`,
the configuration surface) are modelled from the specification and say so in
their doc comments.
-/

namespace Cot

/-- A byte chunk produced by a streaming body (a `Bytes` value). -/
abbrev Chunk := List Nat

/-- Modelled from the spec: a boxed, type-erased `dyn std::error::Error` value
(`Box<dyn Error + Send + Sync>`), the "standard error contract": displayable
and source-chain-capable.  A boxed value is either a foreign error (message
plus optional source), or a boxed canonical `Error` — `wrapped` is a canonical
error whose representation is `MiddlewareWrapped` and `otherCot` stands for
the canonical error's remaining variants, collapsed to one representative. -/
inductive DynError where
  | foreign (msg : String) (source : Option DynError)
  | wrapped (source : DynError)
  | otherCot (msg : String)

/-- The representation of the canonical framework error (`crate::error::ErrorRepr`,
declared outside `middleware.rs`; modelled from the spec: a tagged variant set
with one variant `MiddlewareWrapped` carrying a type-erased cause). -/
inductive ErrorRepr where
  | middlewareWrapped (source : DynError)
  | other (msg : String)

/-- The canonical framework error (`cot::Error`), a wrapper around `ErrorRepr`
(`Error::new(repr)` is the anonymous constructor). -/
structure Error where
  rep : ErrorRepr

/-- Boxing a canonical `Error` as a `Box<dyn Error>`: pure type erasure,
losing nothing. -/
def Error.box : Error → DynError
  | ⟨.middlewareWrapped s⟩ => .wrapped s
  | ⟨.other m⟩ => .otherCot m

/-- `fn map_err<E>(error: E) -> Error` from `middleware.rs`: converts a foreign
error into the canonical error by boxing it as the cause of a
`MiddlewareWrapped` variant, unconditionally. -/
def map_err (error : DynError) : Error :=
  ⟨.middlewareWrapped error⟩

/-- Modelled from the spec: the display text of a boxed error.  A foreign
error displays its own message; a canonical error's `MiddlewareWrapped`
variant displays a diagnostic prefix followed by its cause's display text
(the spec requires the wrapped display to include the original message). -/
def DynError.displayD : DynError → String
  | .foreign m _ => m
  | .wrapped s => "middleware error: " ++ s.displayD
  | .otherCot m => m

/-- Modelled from the spec: display of the canonical error. -/
def Error.display (e : Error) : String :=
  e.box.displayD

/-- Modelled from the spec: the standard `source()` of a boxed error.  The
`MiddlewareWrapped` variant reports its boxed cause as source. -/
def DynError.sourceD : DynError → Option DynError
  | .foreign _ s => s
  | .wrapped s => some s
  | .otherCot _ => none

/-- Modelled from the spec: `source()` of the canonical error. -/
def Error.sourceE (e : Error) : Option DynError :=
  e.box.sourceD

/-- Number of directly nested `MiddlewareWrapped` layers at the head of a
boxed error. -/
def DynError.wrapDepthD : DynError → Nat
  | .foreign _ _ => 0
  | .wrapped s => 1 + s.wrapDepthD
  | .otherCot _ => 0

/-- Number of directly nested `MiddlewareWrapped` layers of a canonical error. -/
def Error.wrapDepth (e : Error) : Nat :=
  e.box.wrapDepthD

/-- Whether the canonical error is the `MiddlewareWrapped` variant. -/
def Error.isWrapped : Error → Bool
  | ⟨.middlewareWrapped _⟩ => true
  | ⟨.other _⟩ => false

example : (map_err (.foreign "boom" none)).wrapDepth = 1 := rfl
example : (map_err ((map_err (.foreign "boom" none)).box)).wrapDepth = 2 := rfl
example : (map_err (.foreign "boom" none)).display = "middleware error: boom" := rfl

/-- The canonical inbound request (`cot::request::Request`): opaque to this
layer, which only passes it through; modelled by its observable parts. -/
structure Request where
  path : String
  headers : List (String × String)

/-- A deterministic streaming body with error channel `ε`
(`http_body::Body<Data = Bytes, Error = E>`): a sequence of byte chunks
followed by either clean end-of-stream (`terminal = none`) or a streaming
error (`terminal = some e`). -/
structure HttpBody (ε : Type) where
  chunks : List Chunk
  terminal : Option ε

/-- `http_body_util::combinators::MapErr` (the effect of `body.map_err(f)`):
rewrites only the error channel, the chunk stream is untouched. -/
def HttpBody.mapErrB (f : ε → ε') (b : HttpBody ε) : HttpBody ε' :=
  ⟨b.chunks, b.terminal.map f⟩

/-- A generic `http::Response<B>`: status and headers plus a body of type `β`. -/
structure HttpResponse (β : Type) where
  status : Nat
  headers : List (String × String)
  body : β

/-- `http::Response::map`: applies `f` to the body, keeping status and headers. -/
def HttpResponse.mapR (f : β → γ) (r : HttpResponse β) : HttpResponse γ :=
  ⟨r.status, r.headers, f r.body⟩

/-- Modelled from the spec: the canonical opaque body (`cot::Body`), created
by `Body::wrapper(BoxBody::new(..))` — a type-erased wrapper around a body
whose error channel is the canonical `Error`; `BoxBody::new` is pure type
erasure, so the wrapper carries the underlying stream unchanged. -/
structure Body where
  wrapper ::
  boxed : HttpBody Error

/-- The canonical response (`cot::response::Response`):
`http::Response<cot::Body>`. -/
abbrev Response := HttpResponse Body

/-- `fn map_response<B, E>` from `middleware.rs`:
`response.map(|body| Body::wrapper(BoxBody::new(body.map_err(map_err))))`.
The foreign body error type is represented by the universal boxed type
`DynError`. -/
def map_response (response : HttpResponse (HttpBody DynError)) : Response :=
  response.mapR (fun body => Body.wrapper (body.mapErrB map_err))

/-- A `poll_ready` outcome: `Poll<Result<(), E>>`. -/
inductive Poll (ε : Type) where
  | ready : Poll ε
  | failed (e : ε) : Poll ε
  | pending : Poll ε

/-- `Poll::map_err` on the readiness result: rewrites the failure, keeps
ready/pending. -/
def Poll.mapErr (f : ε → ε') : Poll ε → Poll ε'
  | .ready => .ready
  | .failed e => .failed (f e)
  | .pending => .pending

/-- A deterministic shallow model of a `tower::Service`: a readiness outcome
and a call function from request to result. -/
structure Svc (α ρ ε : Type) where
  pollReady : Poll ε
  call : α → Except ε ρ

/-- The `IntoCotResponse` service produced by `IntoCotResponseLayer::layer`
(the layer struct is zero-sized, so layer value and service constructor are
collapsed): `poll_ready` delegates to the inner service unchanged; `call`
maps a successful inner result through `map_response`
(`self.inner.call(request).map_ok(map_response)`); the error type is the
inner service's error type, unchanged. -/
def IntoCotResponseLayer.layer
    (inner : Svc Request (HttpResponse (HttpBody DynError)) DynError) :
    Svc Request Response DynError :=
  { pollReady := inner.pollReady
    call := fun request => (inner.call request).map map_response }

/-- The `IntoCotError` service produced by `IntoCotErrorLayer::layer`:
`poll_ready` is `self.inner.poll_ready(cx).map_err(map_err)` and `call` is
`self.inner.call(request).map_err(map_err)`. -/
def IntoCotErrorLayer.layer {ρ : Type}
    (inner : Svc Request ρ DynError) :
    Svc Request ρ Error :=
  { pollReady := inner.pollReady.mapErr map_err
    call := fun request => (inner.call request).mapError map_err }

/-- Modelled from the spec: content-type test used by the reload stage, which
only touches HTML responses. -/
def isHtml (headers : List (String × String)) : Bool :=
  headers.contains ("content-type", "text/html")

/-- Modelled from the spec: the bytes of the reconnecting client snippet the
reload stage injects (an arbitrary concrete script chunk). -/
def reloadScript : Chunk :=
  [60, 115, 99, 114, 105, 112, 116, 62]

/-- Converting the canonical opaque body back into a generic streaming body
as the reload stage sees it: same chunks, error channel boxed. -/
def Body.toForeign (b : Body) : HttpBody DynError :=
  ⟨b.boxed.chunks, b.boxed.terminal.map Error.box⟩

/-- Modelled from the spec: the reload stage (`tower_livereload::LiveReloadLayer`
applied to the inner service; external collaborator).  It delegates readiness
and calls to the inner service; on success it appends the client snippet to
HTML response bodies and leaves other responses untouched; its response body
and error types are foreign (boxed) from the adapters' point of view. -/
def liveReloadLayer (inner : Svc Request Response Error) :
    Svc Request (HttpResponse (HttpBody DynError)) DynError :=
  { pollReady := inner.pollReady.mapErr Error.box
    call := fun request =>
      ((inner.call request).map fun response =>
        let b := response.body.toForeign
        ⟨response.status, response.headers,
          if isHtml response.headers then ⟨b.chunks ++ [reloadScript], b.terminal⟩
          else b⟩).mapError Error.box }

/-- `tower::util::Either` as a service: each variant delegates `poll_ready`
and `call` to the service it carries (variant `a` is `Either::A`/left,
variant `b` is `Either::B`/right). -/
inductive EitherSvc (σ : Type) where
  | a (s : σ)
  | b (s : σ)

/-- The delegation behaviour of `Either`'s `Service` implementation. -/
def EitherSvc.toSvc : EitherSvc (Svc α ρ ε) → Svc α ρ ε
  | .a s => s
  | .b s => s

/-- `LiveReloadLayerType = Either<(IntoCotErrorLayer, IntoCotResponseLayer,
tower_livereload::LiveReloadLayer), Identity>` — all four layer structs are
zero-sized, so the layer value carries only the `Either` tag. -/
inductive LiveReloadLayerType where
  | layersTuple : LiveReloadLayerType
  | identity : LiveReloadLayerType

/-- `tower::util::option_layer`: `Some(layer)` becomes `Either::A(layer)`,
`None` becomes `Either::B(Identity)`. -/
def option_layer : Option Unit → LiveReloadLayerType
  | some _ => .layersTuple
  | none => .identity

/-- `LiveReloadMiddleware(LiveReloadLayerType)`. -/
structure LiveReloadMiddleware where
  inner0 : LiveReloadLayerType

/-- `LiveReloadMiddleware::with_enabled(enabled)`:
`Self(option_layer(enabled.then(|| (IntoCotErrorLayer::new(),
IntoCotResponseLayer::new(), LiveReloadLayer::new()))))`. -/
def LiveReloadMiddleware.with_enabled (enabled : Bool) : LiveReloadMiddleware :=
  ⟨option_layer (if enabled then some () else none)⟩

/-- `LiveReloadMiddleware::new()`: always enabled. -/
def LiveReloadMiddleware.new : LiveReloadMiddleware :=
  .with_enabled true

/-- The `Layer` implementation of `LiveReloadLayerType`: `Either::A` of the
tuple layers `Either::A((l1, l2, l3)).layer(inner) =
Either::A(l1.layer(l2.layer(l3.layer(inner))))` with the first tuple element
outermost; `Either::B(Identity).layer(inner) = Either::B(inner)`. -/
def LiveReloadLayerType.layerOf :
    LiveReloadLayerType → Svc Request Response Error →
      EitherSvc (Svc Request Response Error)
  | .layersTuple, inner =>
      .a (IntoCotErrorLayer.layer (IntoCotResponseLayer.layer (liveReloadLayer inner)))
  | .identity, inner => .b inner

/-- The `Layer` implementation of `LiveReloadMiddleware`:
`self.0.layer(inner)`. -/
def LiveReloadMiddleware.layer (m : LiveReloadMiddleware)
    (inner : Svc Request Response Error) : EitherSvc (Svc Request Response Error) :=
  m.inner0.layerOf inner

/-- Whether the middleware value holds the enabled (`Either::A`) branch. -/
def LiveReloadMiddleware.isEnabled (m : LiveReloadMiddleware) : Bool :=
  match m.inner0 with
  | .layersTuple => true
  | .identity => false

/-- Modelled from the spec: the raw configuration value behind
`middlewares.live_reload.enabled` — the option may be absent from the
configuration file, malformed, or an explicit boolean. -/
inductive ConfigValue where
  | absent
  | malformed
  | boolVal (b : Bool)

/-- Modelled from the spec: reading the live-reload enablement flag from the
raw configuration value — an absent or malformed value defaults to disabled
(false) rather than erroring. -/
def ConfigValue.parseEnabled : ConfigValue → Bool
  | .boolVal b => b
  | .absent => false
  | .malformed => false

/-- Modelled from the spec: the live-reload section of the middlewares
configuration. -/
structure LiveReloadConfig where
  enabled : ConfigValue

/-- Modelled from the spec: the middlewares section of the configuration. -/
structure MiddlewaresConfig where
  live_reload : LiveReloadConfig

/-- Modelled from the spec: the project configuration. -/
structure ProjectConfig where
  middlewares : MiddlewaresConfig

/-- Modelled from the spec: the project context; `config()` returns the
loaded configuration. -/
structure ProjectContext where
  config : ProjectConfig

/-- `LiveReloadMiddleware::from_context(context)`:
`Self::with_enabled(context.config().middlewares.live_reload.enabled)`, the
boolean read once at construction from the parsed configuration value. -/
def LiveReloadMiddleware.from_context (context : ProjectContext) : LiveReloadMiddleware :=
  .with_enabled context.config.middlewares.live_reload.enabled.parseEnabled

/-- Modelled from the spec: the data held in one session (a mapping of keys
to values). -/
abbrev SessionData := List (String × String)

/-- Modelled from the spec: the contents of one in-memory session store
(`tower_sessions::MemoryStore`): an in-memory mapping from session id to
session data; `MemoryStore::default()` is the empty mapping. -/
abbrev StoreState := List (Nat × SessionData)

/-- The allocation state of the process: every `MemoryStore` allocated so
far, indexed by allocation order.  `MemoryStore::default()` inside
`SessionMiddleware::layer` allocates a fresh store, so store identity (which
services share which store) is made explicit here; a process restart starts
from `Heap.empty`. -/
structure Heap where
  stores : List StoreState

/-- The heap of a freshly started process: no store allocated, nothing
persisted. -/
def Heap.empty : Heap := ⟨[]⟩

/-- `MemoryStore::default()`: allocates a fresh, empty in-memory store and
returns its identity. -/
def Heap.alloc (h : Heap) : Heap × Nat :=
  (⟨h.stores ++ [[]]⟩, h.stores.length)

/-- Modelled from the spec: `load(id) -> Session | None` against the store
identified by `sid`. -/
def Heap.loadFrom (h : Heap) (sid id : Nat) : Option SessionData :=
  match h.stores[sid]? with
  | some st => (st.find? (fun p => p.1 == id)).map Prod.snd
  | none => none

/-- Inserting (or replacing) a session record in one store's contents. -/
def StoreState.saveRec (st : StoreState) (id : Nat) (d : SessionData) : StoreState :=
  match st with
  | [] => [(id, d)]
  | (k, v) :: rest => if k == id then (id, d) :: rest else (k, v) :: StoreState.saveRec rest id d

/-- Modelled from the spec: `save(Session)` against the store identified by
`sid`; stores other than `sid` are untouched. -/
def Heap.saveIn (h : Heap) (sid id : Nat) (d : SessionData) : Heap :=
  match h.stores[sid]? with
  | some st => ⟨h.stores.set sid (st.saveRec id d)⟩
  | none => h

/-- `SessionMiddleware`: a zero-sized layer value; it holds no store of its
own. -/
structure SessionMiddleware where

/-- `SessionMiddleware::new()`. -/
def SessionMiddleware.new : SessionMiddleware := ⟨⟩

/-- The session-manager service produced by layering: it holds the identity
of the store backing it and the inner service. -/
structure SessionService (σ : Type) where
  storeId : Nat
  inner : σ

/-- The `Layer` implementation of `SessionMiddleware`:
`let session_store = MemoryStore::default();
 let session_layer = SessionManagerLayer::new(session_store);
 session_layer.layer(inner)` — every application allocates a fresh
in-memory store and wires it, with the inner service, into the
session-manager service. -/
def SessionMiddleware.layer {σ : Type} (m : SessionMiddleware) (h : Heap)
    (inner : σ) : Heap × SessionService σ :=
  match m with
  | ⟨⟩ =>
    let alloc := h.alloc
    (alloc.1, ⟨alloc.2, inner⟩)

/-! ## Concrete sample values -/

/-- A sample canonical response: 200, one non-HTML header, empty body. -/
def sampleResponse : Response :=
  ⟨200, [("content-type", "text/plain")], Body.wrapper ⟨[], none⟩⟩

/-- A sample request. -/
def sampleRequest : Request :=
  ⟨"/", []⟩

/-- A sample inner stage that is always ready and always returns
`sampleResponse`. -/
def sampleInner : Svc Request Response Error :=
  { pollReady := .ready, call := fun _ => .ok sampleResponse }

/-- A sample inner stage whose readiness is pending (backpressure). -/
def pendingInner : Svc Request Response Error :=
  { pollReady := .pending, call := fun _ => .ok sampleResponse }

/-! ## Helper lemmas -/

/-- Mapping the error of a readiness result does not change whether it is
ready. -/
theorem Poll.mapErr_ready_iff (f : ε → ε') (p : Poll ε) :
    p.mapErr f = .ready ↔ p = .ready := by
  cases p <;> simp [Poll.mapErr]

/-- The enablement flag is faithfully recorded by `with_enabled`. -/
theorem LiveReloadMiddleware.isEnabled_with_enabled (b : Bool) :
    (LiveReloadMiddleware.with_enabled b).isEnabled = b := by
  cases b <;> rfl

/-- A freshly allocated store is empty: no session is loadable from it. -/
theorem Heap.loadFrom_alloc_fresh (h : Heap) (id : Nat) :
    h.alloc.1.loadFrom h.alloc.2 id = none := by
  simp [Heap.alloc, Heap.loadFrom, List.getElem?_concat_length]

/-- Allocating a new store does not change what older stores contain. -/
theorem Heap.loadFrom_alloc_ne (h : Heap) (sid id : Nat)
    (hlt : sid < h.stores.length) :
    h.alloc.1.loadFrom sid id = h.loadFrom sid id := by
  simp [Heap.alloc, Heap.loadFrom, List.getElem?_append_left hlt]

/-- Saving into one store leaves every other store's contents unchanged. -/
theorem Heap.loadFrom_saveIn_ne (h : Heap) {s1 s2 : Nat} (id id2 : Nat)
    (d : SessionData) (hne : s1 ≠ s2) :
    (h.saveIn s1 id d).loadFrom s2 id2 = h.loadFrom s2 id2 := by
  unfold Heap.saveIn
  cases he : h.stores[s1]? with
  | none => rfl
  | some st => simp [Heap.loadFrom, List.getElem?_set_ne hne]

/-! ## Claims -/

/-- C1 (counterexample): the claim says re-normalizing an already-canonical
error never yields two nested `MiddlewareWrapped` layers.  On the code it
does: `map_err` wraps unconditionally, so passing the canonical error
`map_err(foreign "boom")` (itself `MiddlewareWrapped`) through `map_err`
again produces wrap depth 2, not at most 1. -/
theorem claim_C1_counterexample :
    (map_err (Error.box (map_err (.foreign "boom" none)))).wrapDepth = 2 ∧
    ¬ (map_err (Error.box (map_err (.foreign "boom" none)))).wrapDepth ≤ 1 := by
  exact ⟨rfl, by decide⟩

/-- C1 (amended): passing an already-canonical error through the Error
Adapter's normalization again wraps it in exactly one more
`MiddlewareWrapped` layer — the wrap depth grows by one per application, so a
single-wrapped error becomes double-wrapped — and the original canonical
error stays reachable as the immediate source. -/
theorem claim_C1_amended (e : Error) :
    (map_err e.box).wrapDepth = e.wrapDepth + 1 ∧
    (map_err e.box).sourceE = some e.box := by
  exact ⟨Nat.add_comm 1 _, rfl⟩

/-- C2 (counterexample): the claim says the disabled live-reload stage's
readiness is always immediately ready.  On the code the disabled branch is
`Either::B(inner)`, which delegates readiness to the composed next stage: for
a next stage whose readiness is pending, the disabled pipeline's readiness is
pending, not ready. -/
theorem claim_C2_counterexample :
    ((LiveReloadMiddleware.with_enabled false).layer pendingInner).toSvc.pollReady
      = Poll.pending ∧
    (Poll.pending : Poll Error) ≠ Poll.ready :=
  ⟨rfl, fun h => nomatch h⟩

/-- C2 (amended): a pipeline stage built with enablement flag = false is
`Either::B` of the next stage itself — the inner live-reload chain is never
constructed or invoked — so its readiness equals the next stage's readiness
(the conditional wrapper itself never blocks), its call forwards the request
unchanged, and its result equals the next stage's result on every request. -/
theorem claim_C2_amended (inner : Svc Request Response Error) (R : Request) :
    (LiveReloadMiddleware.with_enabled false).layer inner = .b inner ∧
    ((LiveReloadMiddleware.with_enabled false).layer inner).toSvc.pollReady
      = inner.pollReady ∧
    ((LiveReloadMiddleware.with_enabled false).layer inner).toSvc.call R
      = inner.call R :=
  ⟨rfl, rfl, rfl⟩

/-- C3: normalizing a foreign error with message `M` yields the
`MiddlewareWrapped` variant of the canonical error, whose display text
contains `M` and whose source is exactly the original error; the Error
Adapter's call path applies exactly this normalization to the inner error. -/
theorem claim_C3_error_round_trip (M : String) (src : Option DynError)
    (innerE : Svc Request Response DynError) (R : Request) :
    map_err (.foreign M src) = ⟨.middlewareWrapped (.foreign M src)⟩ ∧
    (map_err (.foreign M src)).isWrapped = true ∧
    (∃ p q, (map_err (.foreign M src)).display = p ++ M ++ q) ∧
    (map_err (.foreign M src)).sourceE = some (.foreign M src) ∧
    (IntoCotErrorLayer.layer innerE).call R = (innerE.call R).mapError map_err := by
  refine ⟨rfl, rfl, ⟨"middleware error: ", "", ?_⟩, rfl, rfl⟩
  simp [map_err, Error.display, Error.box, DynError.displayD]

/-- C4: the Response Adapter maps a successful inner result through
`map_response` only; `map_response` keeps status and headers and keeps the
body's chunk stream (hence the byte sequence and its order) unchanged — only
the body's representation (wrapping, error channel) changes. -/
theorem claim_C4_response_structure
    (inner : Svc Request (HttpResponse (HttpBody DynError)) DynError)
    (R : Request) (resp : HttpResponse (HttpBody DynError)) :
    (IntoCotResponseLayer.layer inner).call R = (inner.call R).map map_response ∧
    (map_response resp).status = resp.status ∧
    (map_response resp).headers = resp.headers ∧
    (map_response resp).body.boxed.chunks = resp.body.chunks :=
  ⟨rfl, rfl, rfl, rfl⟩

/-- C5: the Response Adapter rewrites the adapted body's error channel with
`map_err` — the very function the Error Adapter applies to foreign stage
errors — so that a body-streaming error becomes the canonical
`MiddlewareWrapped` error. -/
theorem claim_C5_body_error_normalization
    (resp : HttpResponse (HttpBody DynError)) (e : DynError)
    (innerE : Svc Request Response DynError) (R : Request) :
    (map_response resp).body.boxed.terminal = resp.body.terminal.map map_err ∧
    (map_response ⟨resp.status, resp.headers, ⟨resp.body.chunks, some e⟩⟩).body.boxed.terminal
      = some (map_err e) ∧
    (map_err e).isWrapped = true ∧
    (IntoCotErrorLayer.layer innerE).call R = (innerE.call R).mapError map_err :=
  ⟨rfl, rfl, rfl, rfl⟩

/-- C6: the Response Adapter's readiness is exactly the inner readiness; the
Error Adapter's readiness is the inner readiness with failures rewritten by
`map_err`, so it succeeds iff the inner succeeds and a failure becomes the
canonical `MiddlewareWrapped` error. -/
theorem claim_C6_readiness_passthrough
    (innerR : Svc Request (HttpResponse (HttpBody DynError)) DynError)
    (innerE : Svc Request Response DynError) (e : DynError) :
    (IntoCotResponseLayer.layer innerR).pollReady = innerR.pollReady ∧
    (IntoCotErrorLayer.layer innerE).pollReady = innerE.pollReady.mapErr map_err ∧
    ((IntoCotErrorLayer.layer innerE).pollReady = Poll.ready ↔
      innerE.pollReady = Poll.ready) ∧
    Poll.mapErr map_err (Poll.failed e) = Poll.failed (map_err e) ∧
    (map_err e).isWrapped = true :=
  ⟨rfl, rfl, Poll.mapErr_ready_iff map_err innerE.pollReady, rfl, rfl⟩

/-- C7: the live-reload stage with enablement flag = true is `Either::A` of
exactly `IntoCotError(IntoCotResponse(liveReload(inner)))` — Error Adapter
outermost, then Response Adapter, then the reload stage — and whenever that
inner chain always returns response `X`, the enabled pipeline returns `X` on
every request. -/
theorem claim_C7_enabled_composition :
    (∀ inner : Svc Request Response Error,
      (LiveReloadMiddleware.with_enabled true).layer inner =
        .a (IntoCotErrorLayer.layer (IntoCotResponseLayer.layer (liveReloadLayer inner)))) ∧
    ∀ (inner : Svc Request Response Error) (X : Response) (R : Request),
      (∀ r, (IntoCotErrorLayer.layer
          (IntoCotResponseLayer.layer (liveReloadLayer inner))).call r = .ok X) →
      ((LiveReloadMiddleware.with_enabled true).layer inner).toSvc.call R = .ok X :=
  ⟨fun _ => rfl, fun _ _ R hX => hX R⟩

/-- Witness for C7: a concrete enabled pipeline over a constant inner stage
returns the constant response. -/
theorem claim_C7_enabled_composition_witness :
    ((LiveReloadMiddleware.with_enabled true).layer sampleInner).toSvc.call sampleRequest
      = .ok sampleResponse :=
  claim_C7_enabled_composition.2 sampleInner sampleResponse sampleRequest (fun _ => rfl)

/-- C8: `from_context` is `with_enabled` of the configuration's live-reload
boolean, read once from the context at construction; the stage is enabled iff
that boolean is true, and an absent or malformed configuration value parses
to `false` (disabled) rather than an error. -/
theorem claim_C8_from_context (ctx : ProjectContext) (b : Bool) :
    LiveReloadMiddleware.from_context ctx =
      LiveReloadMiddleware.with_enabled
        ctx.config.middlewares.live_reload.enabled.parseEnabled ∧
    (LiveReloadMiddleware.with_enabled b).isEnabled = b ∧
    (LiveReloadMiddleware.from_context ctx).isEnabled
      = ctx.config.middlewares.live_reload.enabled.parseEnabled ∧
    ConfigValue.parseEnabled .absent = false ∧
    ConfigValue.parseEnabled .malformed = false :=
  ⟨rfl, LiveReloadMiddleware.isEnabled_with_enabled b,
    LiveReloadMiddleware.isEnabled_with_enabled _, rfl, rfl⟩

/-- C9: layering `SessionMiddleware::new()` allocates a fresh in-memory
store: the service's store is the newly allocated slot, that slot holds the
empty store, and no session is loadable from it — in particular nothing
persists into it from before construction, so a process restart (which
reconstructs the pipeline) starts from an empty store. -/
theorem claim_C9_default_memory_store {σ : Type} (h : Heap) (inner : σ) (id : Nat) :
    (SessionMiddleware.new.layer h inner).2.storeId = h.stores.length ∧
    (SessionMiddleware.new.layer h inner).1.stores[h.stores.length]?
      = some ([] : StoreState) ∧
    (SessionMiddleware.new.layer h inner).1.loadFrom
      (SessionMiddleware.new.layer h inner).2.storeId id = none :=
  ⟨rfl, List.getElem?_concat_length _ _, Heap.loadFrom_alloc_fresh h id⟩

/-- C10: two applications of `SessionMiddleware`'s layer operation allocate
two distinct in-memory stores, and a session saved through either service is
not loadable through the other. -/
theorem claim_C10_store_independence {σ : Type} (h : Heap) (inner1 inner2 : σ)
    (id : Nat) (d : SessionData) :
    (SessionMiddleware.new.layer h inner1).2.storeId ≠
      (SessionMiddleware.new.layer (SessionMiddleware.new.layer h inner1).1 inner2).2.storeId ∧
    (((SessionMiddleware.new.layer (SessionMiddleware.new.layer h inner1).1 inner2).1.saveIn
        (SessionMiddleware.new.layer h inner1).2.storeId id d).loadFrom
      (SessionMiddleware.new.layer (SessionMiddleware.new.layer h inner1).1 inner2).2.storeId id)
      = none ∧
    (((SessionMiddleware.new.layer (SessionMiddleware.new.layer h inner1).1 inner2).1.saveIn
        (SessionMiddleware.new.layer (SessionMiddleware.new.layer h inner1).1 inner2).2.storeId
        id d).loadFrom
      (SessionMiddleware.new.layer h inner1).2.storeId id) = none := by
  have hlen : (h.stores ++ [([] : StoreState)]).length = h.stores.length + 1 := by
    simp
  have hne : h.stores.length ≠ (h.stores ++ [([] : StoreState)]).length := by
    omega
  have hlt : h.stores.length < (h.stores ++ [([] : StoreState)]).length := by
    simp only [List.length_append, List.length_cons, List.length_nil]
    omega
  have key1 : ((⟨(h.stores ++ [[]]) ++ [[]]⟩ : Heap).saveIn h.stores.length id d).loadFrom
      (h.stores ++ [[]]).length id = none := by
    rw [Heap.loadFrom_saveIn_ne _ _ _ _ hne]
    exact Heap.loadFrom_alloc_fresh (⟨h.stores ++ [[]]⟩ : Heap) id
  have key2 : ((⟨(h.stores ++ [[]]) ++ [[]]⟩ : Heap).saveIn (h.stores ++ [[]]).length id
      d).loadFrom h.stores.length id = none := by
    rw [Heap.loadFrom_saveIn_ne _ _ _ _ (Ne.symm hne)]
    have step : ((⟨h.stores ++ [[]]⟩ : Heap).alloc).1.loadFrom h.stores.length id
        = (⟨h.stores ++ [[]]⟩ : Heap).loadFrom h.stores.length id :=
      Heap.loadFrom_alloc_ne _ _ _ hlt
    exact step.trans (Heap.loadFrom_alloc_fresh h id)
  exact ⟨hne, key1, key2⟩

end Cot
